import Mathlib

/-!
Shallow embedding of the tms-frontend task-management client, covering the
API payload construction in src/services/apiService.tsx, the session store
in src/contexts/AuthProvider.tsx, and the search/pagination controller state
of the Dashboard, AdminTaskManagement and UserManagement components.
JavaScript objects with optional keys are embedded as structures of Option
fields: a key that is absent or holds undefined (and is therefore dropped by
the JSON serializer before transmission) is none. JavaScript string
truthiness is embedded as: none and some "" are falsy.
-/

namespace TMS

/-- Pagination metadata, from the PaginationInfo interface in the shared
types module. -/
structure PaginationInfo where
  current_page : Nat
  total_pages : Nat
  total_items : Nat
  items_per_page : Nat
  has_next : Bool
  has_previous : Bool
deriving Repr, DecidableEq

/-- The initial and error-reset pagination object used by Dashboard. -/
def defaultPagination : PaginationInfo :=
  { current_page := 1, total_pages := 1, total_items := 0,
    items_per_page := 10, has_next := false, has_previous := false }

/-- A task record, from the Task interface in the shared types module. -/
structure Task where
  id : String
  title : String
  description : Option String := none
  priority : String
  status : String
  due_date : Option String := none
  due_datetime : Option String := none
  start_datetime : Option String := none
  end_datetime : Option String := none
  created_at : Option String := none
  updated_at : Option String := none
  user_id : Option String := none
  owner_id : Option String := none
deriving Repr, DecidableEq

/-- A user record, from the User interface in the shared types module. -/
structure User where
  id : Option String := none
  username : String
  email : Option String := none
  is_admin : Option Bool := none
  created_at : Option String := none
  updated_at : Option String := none
deriving Repr, DecidableEq

/-- A task create/update payload object as handed to the apiService
functions: every key is optional, and a key absent from the transmitted
JSON is none. -/
structure TaskPayload where
  title : Option String := none
  description : Option String := none
  priority : Option String := none
  status : Option String := none
  due_date : Option String := none
  due_datetime : Option String := none
  start_datetime : Option String := none
  end_datetime : Option String := none
  user_id : Option String := none
  owner_id : Option String := none
deriving Repr, DecidableEq

/-- JavaScript truthiness of an optional string field: undefined and the
empty string are falsy. -/
def jsTruthy : Option String → Bool
  | none => false
  | some s => s != ""

/-- The JavaScript trim method on strings: whitespace is stripped from both
ends. -/
def jsTrim (s : String) : String :=
  ⟨((s.data.dropWhile Char.isWhitespace).reverse.dropWhile Char.isWhitespace).reverse⟩

/-- createTask and updateTask in apiService.tsx: when the due_date key is
present, a truthy value is moved to due_datetime with the end-of-day suffix
appended, a falsy value sets due_datetime to undefined, and the due_date
key is deleted. -/
def convertDueDate (t : TaskPayload) : TaskPayload :=
  if t.due_date.isSome then
    { t with
      due_datetime :=
        if jsTruthy t.due_date then t.due_date.map (fun d => d ++ "T23:59:59.000Z")
        else none,
      due_date := none }
  else t

/-- createTaskForUser in apiService.tsx: the due_date key is rewritten in
place (not renamed to due_datetime) with the same end-of-day suffix. -/
def convertDueDateInPlace (t : TaskPayload) : TaskPayload :=
  if t.due_date.isSome then
    { t with
      due_date :=
        if jsTruthy t.due_date then t.due_date.map (fun d => d ++ "T23:59:59.000Z")
        else none }
  else t

/-- All three apiService mutation functions: a present truthy start_datetime
gets the start-of-day suffix appended; a present falsy one becomes
undefined. -/
def convertStartDatetime (t : TaskPayload) : TaskPayload :=
  if t.start_datetime.isSome then
    { t with
      start_datetime :=
        if jsTruthy t.start_datetime then t.start_datetime.map (fun d => d ++ "T00:00:00.000Z")
        else none }
  else t

/-- All three apiService mutation functions: a present truthy end_datetime
gets the end-of-day suffix appended; a present falsy one becomes
undefined. -/
def convertEndDatetime (t : TaskPayload) : TaskPayload :=
  if t.end_datetime.isSome then
    { t with
      end_datetime :=
        if jsTruthy t.end_datetime then t.end_datetime.map (fun d => d ++ "T23:59:59.000Z")
        else none }
  else t

/-- The body transmitted by createTask in apiService.tsx. -/
def createTaskBody (t : TaskPayload) : TaskPayload :=
  convertEndDatetime (convertStartDatetime (convertDueDate t))

/-- The allowedFields list hard-coded in updateTask for non-admin callers. -/
def allowedFields : List String := ["status", "start_datetime", "end_datetime"]

/-- The Object.keys reduce in updateTask: keep exactly the keys named in
allowedFields, drop every other key. -/
def restrictToAllowedFields (t : TaskPayload) : TaskPayload :=
  { status := t.status, start_datetime := t.start_datetime,
    end_datetime := t.end_datetime }

/-- The body transmitted by updateTask in apiService.tsx: date conversions
first, then the non-admin field restriction. -/
def updateTaskBody (t : TaskPayload) (isAdmin : Bool) : TaskPayload :=
  let converted := convertEndDatetime (convertStartDatetime (convertDueDate t))
  if !isAdmin then restrictToAllowedFields converted else converted

/-- The body transmitted by createTaskForUser in apiService.tsx: in-place
date conversions, then the user_id and owner_id keys are deleted. -/
def createTaskForUserBody (t : TaskPayload) : TaskPayload :=
  let c := convertEndDatetime (convertStartDatetime (convertDueDateInPlace t))
  { c with user_id := none, owner_id := none }

/-- Query parameters of a paginated list request, as built by
searchUserTasks, searchTasks and searchUsers. -/
structure SearchRequest where
  search : Option String := none
  page : Nat := 1
  limit : Nat := 10
deriving Repr, DecidableEq

/-- The request built from a search term and page: loadTasks, loadData and
loadUsers all pass undefined for the search parameter when the trimmed term
is empty, the captured page, and a limit of 10. -/
def searchRequestOf (searchTerm : String) (currentPage : Nat) : SearchRequest :=
  { search := if jsTrim searchTerm = "" then none else some searchTerm,
    page := currentPage, limit := 10 }

/-- The state owned by the Dashboard component that the list fetch reads
and writes. -/
structure DashboardState where
  tasks : List Task := []
  pagination : PaginationInfo := defaultPagination
  searchTerm : String := ""
  currentPage : Nat := 1
  error : String := ""
  isLoading : Bool := true
  isSearching : Bool := false
deriving Repr, DecidableEq

/-- A successful paginated response body. -/
structure TasksResponse where
  tasks : List Task
  pagination : PaginationInfo
deriving Repr, DecidableEq

/-- Issuing loadTasks in Dashboard.tsx: isSearching is set, the error is
cleared, and the request is built from the captured searchTerm and
currentPage. -/
def loadTasksIssue (st : DashboardState) : DashboardState × SearchRequest :=
  ({ st with isSearching := true, error := "" },
   searchRequestOf st.searchTerm st.currentPage)

/-- A loadTasks response arriving in Dashboard.tsx: the tasks and pagination
are overwritten unconditionally, with no comparison against any other
in-flight fetch, then the finally block clears the loading flags. -/
def loadTasksApplySuccess (st : DashboardState) (r : TasksResponse) : DashboardState :=
  { st with tasks := r.tasks, pagination := r.pagination,
            isLoading := false, isSearching := false }

/-- A loadTasks failure in Dashboard.tsx: the error is set, the task list is
cleared to empty, and the pagination object is reset to its default. -/
def loadTasksApplyFailure (st : DashboardState) (msg : String) : DashboardState :=
  { st with error := "Failed to load tasks: " ++ msg, tasks := [],
            pagination := defaultPagination,
            isLoading := false, isSearching := false }

/-- The guard in every debounced search effect: the timer body fires a fetch
when the term has length at least 3, is the star sentinel, or is empty. -/
def debouncePred (s : String) : Bool :=
  decide (s.length ≥ 3) || s == "*" || s == ""

/-- The Dashboard debounce timer firing: when the guard passes, currentPage
is set to 1 and, when a user is signed in, loadTasks runs. The request it
issues reads the searchTerm and currentPage values captured by the loadTasks
closure at render time; the queued currentPage update does not change those
captured values. -/
def dashboardDebounceSettle (st : DashboardState) (userPresent : Bool) :
    DashboardState × Option SearchRequest :=
  if debouncePred st.searchTerm then
    if userPresent then
      ({ st with currentPage := 1, isSearching := true, error := "" },
       some (searchRequestOf st.searchTerm st.currentPage))
    else ({ st with currentPage := 1 }, none)
  else (st, none)

/-- The state owned by the AdminTaskManagement component that loadData reads
and writes. -/
structure AdminState where
  users : List User := []
  allTasks : List Task := []
  pagination : PaginationInfo := defaultPagination
  isLoading : Bool := true
  error : String := ""
  searchTerm : String := ""
  currentPage : Nat := 1
deriving Repr, DecidableEq

/-- A loadData response arriving in AdminTaskManagement.tsx: users, tasks
and pagination are overwritten unconditionally. -/
def loadDataApplySuccess (st : AdminState) (users : List User) (r : TasksResponse) : AdminState :=
  { st with users := users, allTasks := r.tasks, pagination := r.pagination,
            isLoading := false }

/-- A loadData failure in AdminTaskManagement.tsx: only the error message is
set; the displayed task list, the users and the pagination are left as they
were. -/
def loadDataApplyFailure (st : AdminState) : AdminState :=
  { st with error := "Failed to load task management data", isLoading := false }

/-- The state owned by the UserManagement component that loadUsers reads and
writes. -/
structure UserMgmtState where
  users : List User := []
  pagination : PaginationInfo := defaultPagination
  isLoading : Bool := false
  error : String := ""
  searchTerm : String := ""
  currentPage : Nat := 1
deriving Repr, DecidableEq

/-- A loadUsers failure in UserManagement.tsx: only the error message is
set; the displayed user list and the pagination are left as they were. -/
def loadUsersApplyFailure (st : UserMgmtState) : UserMgmtState :=
  { st with error := "Failed to load users", isLoading := false }

/-- The UserManagement debounce timer firing: when the guard passes,
currentPage is set to 1 and loadUsers runs, issuing a request from the
captured searchTerm and currentPage; otherwise nothing happens. -/
def userMgmtDebounceSettle (st : UserMgmtState) : UserMgmtState × Option SearchRequest :=
  if debouncePred st.searchTerm then
    ({ st with currentPage := 1, isLoading := true },
     some (searchRequestOf st.searchTerm st.currentPage))
  else (st, none)

/-- The login endpoint response shape. -/
structure LoginResponse where
  access_token : String
  token_type : String
deriving Repr, DecidableEq

/-- The persisted browser storage written by AuthProvider: the access_token
and user entries. -/
structure StorageState where
  access_token : Option String := none
  user : Option User := none
deriving Repr, DecidableEq

/-- Outcome of the auth/me fetch inside login: an ok response carrying a
user, a non-ok HTTP response, or the fetch throwing. -/
inductive MeOutcome where
  | ok (u : User)
  | httpError
  | networkThrow (msg : String)
deriving Repr, DecidableEq

/-- login in AuthProvider.tsx, as a function of the two network outcomes.
A loginUser failure is caught and re-thrown with storage untouched. On
success the token is stored immediately; then the auth/me fetch runs: an ok
response stores its user, a non-ok response stores the fallback object
holding only the username, and a thrown fetch propagates to the catch block,
which re-throws after the token was already stored. The second component is
the error surfaced to the caller, if any. -/
def login (st : StorageState) (username : String)
    (loginResult : Except String LoginResponse) (me : MeOutcome) :
    StorageState × Option String :=
  match loginResult with
  | .error e => (st, some e)
  | .ok data =>
    let st1 := { st with access_token := some data.access_token }
    match me with
    | .ok u => ({ st1 with user := some u }, none)
    | .httpError => ({ st1 with user := some { username := username } }, none)
    | .networkThrow msg => (st1, some msg)

/-- The detail and message fields of an error body that parsed as JSON. -/
structure ParsedErrorBody where
  detail : Option String := none
  message : Option String := none
deriving Repr, DecidableEq

/-- JavaScript truthiness filter on an optional string: keeps a non-empty
string, maps undefined and the empty string to none. -/
def jsTruthyVal : Option String → Option String
  | none => none
  | some s => if s == "" then none else some s

/-- handleApiError in apiService.tsx, as a function of the response status,
status text, body text, and the outcome of JSON.parse on the body (none when
parsing threw). The parsed branch is the chain detail, else message, else
the generic message; the unparseable branch is the body text when truthy,
else the HTTP status fallback. -/
def handleApiError (status : Nat) (statusText : String) (bodyText : String)
    (parsed : Option ParsedErrorBody) : String :=
  match parsed with
  | some e =>
    match jsTruthyVal e.detail with
    | some d => d
    | none =>
      match jsTruthyVal e.message with
      | some m => m
      | none => "An error occurred"
  | none =>
    if bodyText == "" then "HTTP " ++ toString status ++ ": " ++ statusText
    else bodyText

/-- The create-user form state in UserManagement. -/
structure UserCreateForm where
  username : String
  email : String
  password : String
  is_admin : Bool
deriving Repr, DecidableEq

/-- The observable effects of the create-user handlers: the API request with
its payload fields, a local append to the users array, a reload of the
paginated list, and the success banner. -/
inductive UserMgmtEffect where
  | apiCreateUser (username : String) (email : Option String) (password : String)
      (is_admin : Option Bool)
  | appendUserLocally (created : User)
  | reloadUsers
  | setSuccess (msg : String)
deriving Repr, DecidableEq

/-- The success path of handleCreateUser in the current UserManagement.tsx:
createUser is posted with the full form, the success banner is set, and
loadUsers is invoked once to refresh the search results. -/
def handleCreateUserSuccess (form : UserCreateForm) (created : User) :
    List UserMgmtEffect :=
  [ .apiCreateUser form.username (some form.email) form.password (some form.is_admin),
    .setSuccess ("User " ++ created.username ++ " created successfully!"),
    .reloadUsers ]

/-- The success path of handleCreateUser in the legacy modal UserManagement
revision: createUser is posted with only username and password, the created
user is appended to the local users array, and no reload is performed. -/
def legacyHandleCreateUserSuccess (form : UserCreateForm) (created : User) :
    List UserMgmtEffect :=
  [ .apiCreateUser form.username none form.password none,
    .appendUserLocally created,
    .setSuccess ("User " ++ created.username
      ++ " created successfully! Note: Email and admin privileges are not yet supported by the backend.") ]

/-- Whether an effect is the list reload. -/
def isReloadEffect : UserMgmtEffect → Bool
  | .reloadUsers => true
  | _ => false

/-- Whether an effect patches the locally held users array. -/
def isLocalPatchEffect : UserMgmtEffect → Bool
  | .appendUserLocally _ => true
  | _ => false

/-- Number of list reloads among the emitted effects. -/
def reloadCount (effects : List UserMgmtEffect) : Nat :=
  (effects.filter isReloadEffect).length

/-- Whether any emitted effect patches the local users array. -/
def patchesLocally (effects : List UserMgmtEffect) : Bool :=
  effects.any isLocalPatchEffect

/-- The task creation form state passed to the admin create handlers. -/
structure TaskFormData where
  title : String
  description : String
  priority : String
  status : String
  due_date : String
  start_datetime : Option String := none
  end_datetime : Option String := none
deriving Repr, DecidableEq

/-- The trim-or-undefined idiom used on date fields of the form. -/
def trimOrNone (s : String) : Option String :=
  if jsTrim s == "" then none else some (jsTrim s)

/-- The optional-chaining variant of the trim-or-undefined idiom. -/
def optTrimOrNone : Option String → Option String
  | none => none
  | some s => trimOrNone s

/-- users.find on id, as used by the admin create handlers to look up the
target user in the loaded list. -/
def findUserById (users : List User) (uid : String) : Option User :=
  users.find? (fun u => u.id == some uid)

/-- Truthiness of targetUser and its is_admin flag: the guard fires exactly
when the target user is found in the loaded list and its is_admin field is
true. -/
def adminGuardBlocks (users : List User) (uid : String) : Bool :=
  match findUserById users uid with
  | some u => u.is_admin.getD false
  | none => false

/-- The taskPayload object built by both admin create handlers from the
form data. -/
def taskPayloadOfForm (td : TaskFormData) : TaskPayload :=
  { title := some td.title, description := some td.description,
    priority := some td.priority, status := some td.status,
    due_date := trimOrNone td.due_date,
    start_datetime := optTrimOrNone td.start_datetime,
    end_datetime := optTrimOrNone td.end_datetime }

/-- handleCreateTask in AdminTaskManagement.tsx: the admin-target guard
throws before the createTaskForUser request; otherwise the request is
returned as the target user id together with the payload handed to
createTaskForUser. -/
def handleCreateTask (users : List User) (td : TaskFormData) (userId : String) :
    Except String (String × TaskPayload) :=
  if adminGuardBlocks users userId then
    .error "Cannot assign tasks to admin users"
  else
    .ok (userId, taskPayloadOfForm td)

/-- handleLegacyCreateTask in AdminTaskManagement.tsx: an empty assignee id
throws first, then the admin-target guard, then the request is issued. -/
def handleLegacyCreateTask (users : List User) (td : TaskFormData)
    (assigningUserId : String) : Except String (String × TaskPayload) :=
  if assigningUserId == "" then
    .error "Please select a user to assign the task to"
  else if adminGuardBlocks users assigningUserId then
    .error "Cannot assign tasks to admin users"
  else
    .ok (assigningUserId, taskPayloadOfForm td)

/-- Whether a handler outcome transmits its request. -/
def sendsRequest : Except String (String × TaskPayload) → Bool
  | .ok _ => true
  | .error _ => false

/-- A concrete task used in counterexamples. -/
def taskA : Task := { id := "a1", title := "Task A", priority := "low", status := "pending" }

/-- A second concrete task, distinct from taskA. -/
def taskB : Task := { id := "b1", title := "Task B", priority := "high", status := "pending" }

/-- The response of an earlier-issued fetch A. -/
def respA : TasksResponse := { tasks := [taskA], pagination := defaultPagination }

/-- The response of a later-issued fetch B. -/
def respB : TasksResponse := { tasks := [taskB], pagination := defaultPagination }

/-- Claim C1 counterexample: loadTasks applies responses unconditionally, so
when the response of fetch B is applied first and the stale response of the
earlier fetch A arrives afterwards, the displayed task list ends up
reflecting the stale result of A, not B. No sequence number is attached to
any fetch and no response is discarded, contrary to the claim. -/
theorem C1_counterexample :
    (loadTasksApplySuccess (loadTasksApplySuccess {} respB) respA).tasks = respA.tasks
    ∧ respA.tasks ≠ respB.tasks := by
  exact ⟨rfl, by decide⟩

/-- Claim C1 amended: responses are applied to displayed state in arrival
order and unconditionally; applying a response after any earlier one yields
exactly the state of applying it alone, so the last response to arrive wins
and an out-of-order stale response silently overwrites a fresher one. -/
theorem C1_amended (st : DashboardState) (stale r : TasksResponse) :
    loadTasksApplySuccess (loadTasksApplySuccess st stale) r
      = loadTasksApplySuccess st r := rfl

/-- The due-date conversion does not touch the status key. -/
lemma convertDueDate_status (t : TaskPayload) :
    (convertDueDate t).status = t.status := by
  unfold convertDueDate; split <;> rfl

/-- The start-datetime conversion does not touch the status key. -/
lemma convertStartDatetime_status (t : TaskPayload) :
    (convertStartDatetime t).status = t.status := by
  unfold convertStartDatetime; split <;> rfl

/-- The end-datetime conversion does not touch the status key. -/
lemma convertEndDatetime_status (t : TaskPayload) :
    (convertEndDatetime t).status = t.status := by
  unfold convertEndDatetime; split <;> rfl

/-- Claim C2: for every non-admin update call, the transmitted payload has
no key outside status, start_datetime and end_datetime; in particular the
payload with title x and status completed transmits exactly the status
key. -/
theorem C2_nonadmin_update_restricted :
    (∀ t : TaskPayload,
      (updateTaskBody t false).title = none
      ∧ (updateTaskBody t false).description = none
      ∧ (updateTaskBody t false).priority = none
      ∧ (updateTaskBody t false).due_date = none
      ∧ (updateTaskBody t false).due_datetime = none
      ∧ (updateTaskBody t false).user_id = none
      ∧ (updateTaskBody t false).owner_id = none
      ∧ (updateTaskBody t false).status = t.status)
    ∧ updateTaskBody { title := some "x", status := some "completed" } false
        = { status := some "completed" } := by
  refine ⟨fun t => ⟨rfl, rfl, rfl, rfl, rfl, rfl, rfl, ?_⟩, rfl⟩
  show (restrictToAllowedFields
      (convertEndDatetime (convertStartDatetime (convertDueDate t)))).status = t.status
  rw [show ∀ u : TaskPayload, (restrictToAllowedFields u).status = u.status from fun _ => rfl,
    convertEndDatetime_status, convertStartDatetime_status, convertDueDate_status]

/-- The Dashboard state of a user sitting on page 2 who has just typed the
term task. -/
def dashOnPage2 : DashboardState := { searchTerm := "task", currentPage := 2 }

/-- Claim C3 (code bug): when the debounce settles for the term task while
the user is on page 2, the stored page is reset to 1, but the fetch issued
in the same timer callback reads the page value captured by the loadTasks
closure and therefore transmits page 2, not page 1. -/
theorem C3_settle_uses_stale_page :
    (dashboardDebounceSettle dashOnPage2 true).2
      = some { search := some "task", page := 2, limit := 10 }
    ∧ (dashboardDebounceSettle dashOnPage2 true).1.currentPage = 1
    ∧ (dashboardDebounceSettle dashOnPage2 true).2
        ≠ some { search := some "task", page := 1, limit := 10 } := by
  refine ⟨?_, ?_, ?_⟩ <;> decide

/-- Claim C4 counterexample: when the credential exchange succeeds with
token tok123 but the auth/me fetch throws, login surfaces the failure and
yet the token is already persisted to storage, contradicting the claim that
on any failure neither token nor user is persisted. -/
theorem C4_counterexample :
    (login {} "alice" (.ok { access_token := "tok123", token_type := "bearer" })
        (.networkThrow "network down")).2 = some "network down"
    ∧ (login {} "alice" (.ok { access_token := "tok123", token_type := "bearer" })
        (.networkThrow "network down")).1.access_token = some "tok123" :=
  ⟨rfl, rfl⟩

/-- Claim C4 amended: a failed credential exchange persists nothing and is
re-thrown; a successful exchange persists the token immediately; a
successful auth/me fetch persists its user with no failure; a non-ok auth/me
response is tolerated by persisting the fallback user holding only the
username, with no failure surfaced; a thrown auth/me fetch is re-thrown but
the already-persisted token remains in storage. -/
theorem C4_amended (st : StorageState) (username e tok tt msg : String) (u : User) :
    login st username (.error e) (.ok u) = (st, some e)
    ∧ login st username (.error e) .httpError = (st, some e)
    ∧ login st username (.error e) (.networkThrow msg) = (st, some e)
    ∧ login st username (.ok { access_token := tok, token_type := tt }) (.ok u)
        = ({ st with access_token := some tok, user := some u }, none)
    ∧ login st username (.ok { access_token := tok, token_type := tt }) .httpError
        = ({ st with access_token := some tok, user := some { username := username } }, none)
    ∧ login st username (.ok { access_token := tok, token_type := tt }) (.networkThrow msg)
        = ({ st with access_token := some tok }, some msg) :=
  ⟨rfl, rfl, rfl, rfl, rfl, rfl⟩

/-- The start-datetime conversion does not touch the due keys. -/
lemma convertStartDatetime_due (t : TaskPayload) :
    (convertStartDatetime t).due_datetime = t.due_datetime
    ∧ (convertStartDatetime t).due_date = t.due_date := by
  unfold convertStartDatetime; split <;> exact ⟨rfl, rfl⟩

/-- The end-datetime conversion does not touch the due keys or the
start-datetime key. -/
lemma convertEndDatetime_due_start (t : TaskPayload) :
    (convertEndDatetime t).due_datetime = t.due_datetime
    ∧ (convertEndDatetime t).due_date = t.due_date
    ∧ (convertEndDatetime t).start_datetime = t.start_datetime := by
  unfold convertEndDatetime; split <;> exact ⟨rfl, rfl, rfl⟩

/-- The due-date conversions do not touch the start-datetime key. -/
lemma convertDue_start (t : TaskPayload) :
    (convertDueDate t).start_datetime = t.start_datetime
    ∧ (convertDueDateInPlace t).start_datetime = t.start_datetime := by
  constructor
  · unfold convertDueDate; split <;> rfl
  · unfold convertDueDateInPlace; split <;> rfl

/-- A present, non-empty due date is rewritten by the renaming conversion to
due_datetime with the end-of-day suffix, and the due_date key is deleted. -/
lemma convertDueDate_sets (t : TaskPayload) (d : String)
    (h : t.due_date = some d) (hd : d ≠ "") :
    (convertDueDate t).due_datetime = some (d ++ "T23:59:59.000Z")
    ∧ (convertDueDate t).due_date = none := by
  unfold convertDueDate
  simp [h, jsTruthy, hd]

/-- A present, non-empty due date is rewritten in place by the
createTaskForUser conversion with the end-of-day suffix. -/
lemma convertDueDateInPlace_sets (t : TaskPayload) (d : String)
    (h : t.due_date = some d) (hd : d ≠ "") :
    (convertDueDateInPlace t).due_date = some (d ++ "T23:59:59.000Z") := by
  unfold convertDueDateInPlace
  simp [h, jsTruthy, hd]

/-- A present, non-empty start datetime gets the start-of-day suffix
appended. -/
lemma convertStartDatetime_sets (t : TaskPayload) (s : String)
    (h : t.start_datetime = some s) (hs : s ≠ "") :
    (convertStartDatetime t).start_datetime = some (s ++ "T00:00:00.000Z") := by
  unfold convertStartDatetime
  simp [h, jsTruthy, hs]

/-- Claim C5: in every create and update call, a non-empty due date is
transmitted with the end-of-day suffix appended and a non-empty start date
with the start-of-day suffix appended: createTask and admin updateTask move
the due value to the due_datetime key, createTaskForUser rewrites it in
place, and the start date is expanded identically by all of them, including
the non-admin update whose filter keeps the start_datetime key. -/
theorem C5_date_normalization (t : TaskPayload) (d s : String)
    (hdue : t.due_date = some d) (hd : d ≠ "")
    (hstart : t.start_datetime = some s) (hs : s ≠ "") :
    (createTaskBody t).due_datetime = some (d ++ "T23:59:59.000Z")
    ∧ (createTaskBody t).due_date = none
    ∧ (createTaskBody t).start_datetime = some (s ++ "T00:00:00.000Z")
    ∧ (createTaskForUserBody t).due_date = some (d ++ "T23:59:59.000Z")
    ∧ (createTaskForUserBody t).start_datetime = some (s ++ "T00:00:00.000Z")
    ∧ (updateTaskBody t true).due_datetime = some (d ++ "T23:59:59.000Z")
    ∧ (updateTaskBody t true).start_datetime = some (s ++ "T00:00:00.000Z")
    ∧ (updateTaskBody t false).start_datetime = some (s ++ "T00:00:00.000Z") := by
  have hcreate_due : (createTaskBody t).due_datetime = some (d ++ "T23:59:59.000Z") := by
    unfold createTaskBody
    rw [(convertEndDatetime_due_start _).1, (convertStartDatetime_due _).1,
      (convertDueDate_sets t d hdue hd).1]
  have hcreate_due2 : (createTaskBody t).due_date = none := by
    unfold createTaskBody
    rw [(convertEndDatetime_due_start _).2.1, (convertStartDatetime_due _).2,
      (convertDueDate_sets t d hdue hd).2]
  have hcreate_start : (createTaskBody t).start_datetime = some (s ++ "T00:00:00.000Z") := by
    unfold createTaskBody
    rw [(convertEndDatetime_due_start _).2.2,
      convertStartDatetime_sets _ s (by rw [(convertDue_start t).1, hstart]) hs]
  have hforuser_due : (createTaskForUserBody t).due_date = some (d ++ "T23:59:59.000Z") := by
    show (convertEndDatetime (convertStartDatetime (convertDueDateInPlace t))).due_date
        = some (d ++ "T23:59:59.000Z")
    rw [(convertEndDatetime_due_start _).2.1, (convertStartDatetime_due _).2,
      convertDueDateInPlace_sets t d hdue hd]
  have hforuser_start : (createTaskForUserBody t).start_datetime
      = some (s ++ "T00:00:00.000Z") := by
    show (convertEndDatetime (convertStartDatetime (convertDueDateInPlace t))).start_datetime
        = some (s ++ "T00:00:00.000Z")
    rw [(convertEndDatetime_due_start _).2.2,
      convertStartDatetime_sets _ s (by rw [(convertDue_start t).2, hstart]) hs]
  exact ⟨hcreate_due, hcreate_due2, hcreate_start, hforuser_due, hforuser_start,
    hcreate_due, hcreate_start, hcreate_start⟩

/-- The payload holding the bare calendar date 2024-05-01 as both due date
and start date. -/
def may0501 : TaskPayload :=
  { due_date := some "2024-05-01", start_datetime := some "2024-05-01" }

/-- Witness for claim C5 at the concrete date 2024-05-01. -/
theorem C5_date_normalization_witness :
    (createTaskBody may0501).due_datetime = some "2024-05-01T23:59:59.000Z"
    ∧ (createTaskBody may0501).due_date = none
    ∧ (createTaskBody may0501).start_datetime = some "2024-05-01T00:00:00.000Z"
    ∧ (createTaskForUserBody may0501).due_date = some "2024-05-01T23:59:59.000Z"
    ∧ (createTaskForUserBody may0501).start_datetime = some "2024-05-01T00:00:00.000Z"
    ∧ (updateTaskBody may0501 true).due_datetime = some "2024-05-01T23:59:59.000Z"
    ∧ (updateTaskBody may0501 true).start_datetime = some "2024-05-01T00:00:00.000Z"
    ∧ (updateTaskBody may0501 false).start_datetime = some "2024-05-01T00:00:00.000Z" :=
  C5_date_normalization may0501 "2024-05-01" "2024-05-01" rfl (by decide) rfl (by decide)

/-- A string has length zero exactly when it is empty. -/
lemma length_eq_zero_iff (s : String) : s.length = 0 ↔ s = "" := by
  constructor
  · intro h
    cases s with
    | mk l =>
      cases l with
      | nil => rfl
      | cons a as => simp [String.length] at h
  · intro h
    subst h
    rfl

/-- The debounce guard passes exactly for the empty term, the star sentinel,
and terms of length at least 3. -/
lemma debouncePred_iff (s : String) :
    debouncePred s = true ↔ (s.length = 0 ∨ s = "*" ∨ 3 ≤ s.length) := by
  unfold debouncePred
  simp only [Bool.or_eq_true, decide_eq_true_eq, beq_iff_eq]
  constructor
  · rintro ((h | h) | h)
    · exact Or.inr (Or.inr h)
    · exact Or.inr (Or.inl h)
    · exact Or.inl ((length_eq_zero_iff s).mpr h)
  · rintro (h | h | h)
    · exact Or.inr ((length_eq_zero_iff s).mp h)
    · exact Or.inl (Or.inr h)
    · exact Or.inl (Or.inl h)

/-- Claim C6: after the debounce settles, a fetch is issued exactly when the
term has length 0, is the star sentinel, or has length at least 3; for a
shorter non-empty term nothing happens at all, in UserManagement and in
Dashboard alike, so the previously displayed results remain unchanged. -/
theorem C6_min_search_length :
    (∀ st : UserMgmtState,
      (userMgmtDebounceSettle st).2.isSome = true ↔
        (st.searchTerm.length = 0 ∨ st.searchTerm = "*" ∨ 3 ≤ st.searchTerm.length))
    ∧ (∀ st : UserMgmtState,
        st.searchTerm.length ≠ 0 → st.searchTerm ≠ "*" → st.searchTerm.length < 3 →
        userMgmtDebounceSettle st = (st, none))
    ∧ (∀ (st : DashboardState) (userPresent : Bool),
        st.searchTerm.length ≠ 0 → st.searchTerm ≠ "*" → st.searchTerm.length < 3 →
        dashboardDebounceSettle st userPresent = (st, none)) := by
  have hfalse : ∀ s : String,
      s.length ≠ 0 → s ≠ "*" → s.length < 3 → debouncePred s = false := by
    intro s h0 hstar h3
    rcases h : debouncePred s with _ | _
    · rfl
    · rcases (debouncePred_iff s).mp h with hc | hc | hc
      · exact absurd hc h0
      · exact absurd hc hstar
      · omega
  refine ⟨fun st => ?_, fun st h0 hstar h3 => ?_, fun st b h0 hstar h3 => ?_⟩
  · unfold userMgmtDebounceSettle
    rcases h : debouncePred st.searchTerm with _ | _
    · rw [if_neg (by simp [h])]
      constructor
      · intro habs
        exact absurd habs (by simp)
      · intro hc
        have := (debouncePred_iff st.searchTerm).mpr hc
        rw [h] at this
        exact absurd this (by simp)
    · rw [if_pos (by simp [h])]
      exact ⟨fun _ => (debouncePred_iff st.searchTerm).mp h, fun _ => rfl⟩
  · unfold userMgmtDebounceSettle
    rw [hfalse st.searchTerm h0 hstar h3]
    rfl
  · unfold dashboardDebounceSettle
    rw [hfalse st.searchTerm h0 hstar h3]
    rfl

/-- Witness for claim C6: the two-character term ab issues no fetch and
leaves the state untouched. -/
theorem C6_min_search_length_witness :
    userMgmtDebounceSettle { searchTerm := "ab" } = ({ searchTerm := "ab" }, none) :=
  C6_min_search_length.2.1 { searchTerm := "ab" } (by decide) (by decide) (by decide)

/-- Claim C7 counterexample: a failed loadData in AdminTaskManagement sets
the error message but leaves the previously displayed task list intact, so
the displayed list is not cleared to empty as claimed. -/
theorem C7_counterexample :
    (loadDataApplyFailure { allTasks := [taskA] }).allTasks = [taskA]
    ∧ [taskA] ≠ ([] : List Task)
    ∧ (loadDataApplyFailure { allTasks := [taskA] }).error
        = "Failed to load task management data" :=
  ⟨rfl, by decide, rfl⟩

/-- Claim C7 amended: every failed list fetch sets an error state and leaves
the query (search text and page) unchanged, but only the Dashboard clears
the displayed list to empty and resets the pagination object;
AdminTaskManagement and UserManagement leave the previously displayed list
and pagination as they were. -/
theorem C7_amended (dst : DashboardState) (msg : String)
    (ast : AdminState) (ust : UserMgmtState) :
    (loadTasksApplyFailure dst msg).error = "Failed to load tasks: " ++ msg
    ∧ (loadTasksApplyFailure dst msg).tasks = []
    ∧ (loadTasksApplyFailure dst msg).pagination = defaultPagination
    ∧ (loadTasksApplyFailure dst msg).searchTerm = dst.searchTerm
    ∧ (loadTasksApplyFailure dst msg).currentPage = dst.currentPage
    ∧ (loadDataApplyFailure ast).error = "Failed to load task management data"
    ∧ (loadDataApplyFailure ast).allTasks = ast.allTasks
    ∧ (loadDataApplyFailure ast).pagination = ast.pagination
    ∧ (loadDataApplyFailure ast).searchTerm = ast.searchTerm
    ∧ (loadDataApplyFailure ast).currentPage = ast.currentPage
    ∧ (loadUsersApplyFailure ust).error = "Failed to load users"
    ∧ (loadUsersApplyFailure ust).users = ust.users
    ∧ (loadUsersApplyFailure ust).pagination = ust.pagination
    ∧ (loadUsersApplyFailure ust).searchTerm = ust.searchTerm
    ∧ (loadUsersApplyFailure ust).currentPage = ust.currentPage :=
  ⟨rfl, rfl, rfl, rfl, rfl, rfl, rfl, rfl, rfl, rfl, rfl, rfl, rfl, rfl, rfl⟩

/-- A concrete create-user form used in counterexamples. -/
def bobForm : UserCreateForm :=
  { username := "bob", email := "bob@example.com", password := "pw123", is_admin := false }

/-- The user record the server returns for that form. -/
def bobUser : User := { id := some "u7", username := "bob" }

/-- Claim C8 counterexample: the legacy UserManagement create handler
performs zero fresh fetches after a successful create and instead appends
the created user to the locally held array, contradicting the claim that the
reload is invoked exactly once and the local array is never patched. -/
theorem C8_counterexample :
    reloadCount (legacyHandleCreateUserSuccess bobForm bobUser) = 0
    ∧ patchesLocally (legacyHandleCreateUserSuccess bobForm bobUser) = true := by
  exact ⟨rfl, rfl⟩

/-- Claim C8 amended: in the current UserManagement a successful create
triggers exactly one fresh fetch of the paginated view and never patches the
local array, while in the legacy modal-based UserManagement revision a
successful create performs no fetch and appends the created user to the
locally held array. -/
theorem C8_amended (form : UserCreateForm) (created : User) :
    reloadCount (handleCreateUserSuccess form created) = 1
    ∧ patchesLocally (handleCreateUserSuccess form created) = false
    ∧ reloadCount (legacyHandleCreateUserSuccess form created) = 0
    ∧ patchesLocally (legacyHandleCreateUserSuccess form created) = true :=
  ⟨rfl, rfl, rfl, rfl⟩

/-- Claim C9 counterexample: for a non-2xx response whose body is not
parseable JSON but is non-empty, the thrown message is the raw body text,
not the HTTP status fallback the claim promises. -/
theorem C9_counterexample :
    handleApiError 503 "Service Unavailable" "upstream connect error" none
      = "upstream connect error"
    ∧ handleApiError 503 "Service Unavailable" "upstream connect error" none
      ≠ "HTTP 503: Service Unavailable" := by
  exact ⟨rfl, by decide⟩

/-- Claim C9 amended: when the body parses as JSON, a non-empty detail field
is surfaced verbatim, else a non-empty message field; when the body is not
parseable JSON the raw body text is surfaced when non-empty, and the string
HTTP status colon statusText only when the body text is empty. -/
theorem C9_amended (status : Nat) (statusText bodyText d m : String)
    (e : ParsedErrorBody) :
    (d ≠ "" → e.detail = some d →
      handleApiError status statusText bodyText (some e) = d)
    ∧ (e.detail = none → m ≠ "" → e.message = some m →
      handleApiError status statusText bodyText (some e) = m)
    ∧ (bodyText ≠ "" →
      handleApiError status statusText bodyText none = bodyText)
    ∧ handleApiError status statusText "" none
        = "HTTP " ++ toString status ++ ": " ++ statusText := by
  refine ⟨?_, ?_, ?_, rfl⟩
  · intro hd hdet
    simp [handleApiError, jsTruthyVal, hdet, hd]
  · intro hdet hm hmsg
    simp [handleApiError, jsTruthyVal, hdet, hmsg, hm]
  · intro hb
    simp [handleApiError, hb]

/-- Witness for claim C9 amended at a concrete 404 with a JSON detail field
and at a concrete non-empty unparseable body. -/
theorem C9_amended_witness :
    handleApiError 404 "Not Found" "ignored"
      (some { detail := some "Task not found", message := none }) = "Task not found"
    ∧ handleApiError 500 "Internal Server Error" "boom" none = "boom" :=
  ⟨(C9_amended 404 "Not Found" "ignored" "Task not found" ""
      { detail := some "Task not found", message := none }).1 (by decide) rfl,
   (C9_amended 500 "Internal Server Error" "boom" "" ""
      { detail := none, message := none }).2.2.1 (by decide)⟩

/-- The guard fires exactly when the target id is found in the loaded user
list with the is_admin flag set to true. -/
lemma adminGuardBlocks_iff (users : List User) (uid : String) :
    adminGuardBlocks users uid = true ↔
      ∃ u, findUserById users uid = some u ∧ u.is_admin = some true := by
  unfold adminGuardBlocks
  cases h : findUserById users uid with
  | none => simp
  | some u =>
    cases hA : u.is_admin with
    | none => simp [hA]
    | some b => cases b <;> simp [hA]

/-- Claim C10: in the admin task-management view, a create invocation whose
target user is found in the loaded list with is_admin true throws the
admin-assignment error before any create request is transmitted, and the
create request is sent exactly when no such admin target is found, in both
the current and the legacy create handler. -/
theorem C10_admin_guard :
    (∀ (users : List User) (uid : String),
      adminGuardBlocks users uid = true ↔
        ∃ u, findUserById users uid = some u ∧ u.is_admin = some true)
    ∧ (∀ (users : List User) (td : TaskFormData) (uid : String),
        adminGuardBlocks users uid = true →
        handleCreateTask users td uid = .error "Cannot assign tasks to admin users")
    ∧ (∀ (users : List User) (td : TaskFormData) (uid : String),
        sendsRequest (handleCreateTask users td uid) = !adminGuardBlocks users uid)
    ∧ (∀ (users : List User) (td : TaskFormData) (uid : String),
        uid ≠ "" → adminGuardBlocks users uid = true →
        handleLegacyCreateTask users td uid = .error "Cannot assign tasks to admin users")
    ∧ (∀ (users : List User) (td : TaskFormData) (uid : String),
        uid ≠ "" →
        sendsRequest (handleLegacyCreateTask users td uid) = !adminGuardBlocks users uid) := by
  refine ⟨adminGuardBlocks_iff, ?_, ?_, ?_, ?_⟩
  · intro users td uid h
    simp [handleCreateTask, h]
  · intro users td uid
    cases h : adminGuardBlocks users uid <;> simp [handleCreateTask, h, sendsRequest]
  · intro users td uid hu h
    simp [handleLegacyCreateTask, hu, h]
  · intro users td uid hu
    cases h : adminGuardBlocks users uid <;>
      simp [handleLegacyCreateTask, hu, h, sendsRequest]

/-- A concrete admin user in the loaded list. -/
def adminRoot : User := { id := some "u1", username := "root", is_admin := some true }

/-- A concrete form for a task to be assigned. -/
def sampleForm : TaskFormData :=
  { title := "T", description := "", priority := "low", status := "pending", due_date := "" }

/-- Witness for claim C10: creating a task for the admin user u1 throws the
admin-assignment error and no request is sent. -/
theorem C10_admin_guard_witness :
    handleCreateTask [adminRoot] sampleForm "u1"
      = .error "Cannot assign tasks to admin users" :=
  C10_admin_guard.2.1 [adminRoot] sampleForm "u1" (by decide)

end TMS
